import Mathlib

/-!
Verification of `nu_plugin_browse` (src/main.rs).

The repository is a nushell plugin exposing one command, `http browse`.
Its `run` method parses a required positional `url` and the switches
`no-stealth` and `with-head`, calls `browse_page`, and wraps any error
into a `LabeledError` labelled "browse failed".  `browse_page` creates a
tokio runtime, builds a browser configuration (port 0, optionally with a
visible head), launches the browser, spawns an event-draining task,
opens a page at the url, optionally enables stealth mode, evaluates an
in-page idle-detection script, reads the page content and closes the
browser; every step uses `?`, so the first failure aborts the rest.

We embed the code in two layers:

* `IdleState` / `applyEvent` / `runEvents` model the JavaScript
  idle-detection script evaluated on the page (src/main.rs lines
  87-135): an in-flight request counter, a single debounced 500 ms
  timer (`done`), wrapped XHR and fetch primitives, a `load` listener
  armed by `maybeResolveImmediately`, and a single-resolution promise.
  Time is a `Nat` (milliseconds); a run is a chronological list of
  timed events, each processed after firing any timer whose deadline
  has passed.

* `Oracle` / `browse_page` / `run` model the Rust control flow
  (src/main.rs lines 52-142).  The external browser operations are
  fallible; an `Oracle` fixes the outcome of each of them, and
  `browse_page` returns the `Result` the Rust function returns together
  with the trace of operations it attempted, in order.
-/

namespace NuBrowse

/-! ## The in-page idle-detection script -/

/-- Debounce interval of the quiet timer, milliseconds (`setTimeout(..., 500)`). -/
def debounceMs : Nat := 500

/-- State of the idle-detection script running in the page:
`activeRequests` is the in-flight request counter, `idleTimer` the single
pending `setTimeout` (absolute firing time and the label captured by the
callback), `loadPending` whether the once-only `load` listener is armed,
and `resolvedVal` the promise's resolution (time and value), if any. -/
structure IdleState where
  activeRequests : Int
  idleTimer : Option (Nat × String)
  loadPending : Bool
  resolvedVal : Option (Nat × String)
deriving DecidableEq, Repr

/-- Resolving the promise at time `t` with value `v`: a no-op if it is
already resolved (a promise resolves at most once). -/
def resolveAt (t : Nat) (v : String) (s : IdleState) : IdleState :=
  if s.resolvedVal.isNone then { s with resolvedVal := some (t, v) } else s

/-- Fire the pending timer if its deadline is at or before time `t`:
the callback `() => resolve(label + "-network-idle")` runs at the
deadline and the timer is spent. -/
def fireTimerUpTo (t : Nat) (s : IdleState) : IdleState :=
  match s.idleTimer with
  | some (d, label) =>
      if d ≤ t then resolveAt d (label ++ "-network-idle") { s with idleTimer := none }
      else s
  | none => s

/-- The script's `done(label)` helper at time `t`:
`clearTimeout(idleTimer); idleTimer = setTimeout(..., 500)` — replace
the pending timer by a fresh one of `debounceMs` carrying `label`. -/
def done (t : Nat) (label : String) (s : IdleState) : IdleState :=
  { s with idleTimer := some (t + debounceMs, label) }

/-- Page events observed by the instrumented primitives: XHR
`loadstart`/`loadend`, entry/exit of the wrapped `fetch`, and the
document's `load` event. -/
inductive JsEvent where
  | xhrLoadStart : JsEvent
  | xhrLoadEnd : JsEvent
  | fetchStart : JsEvent
  | fetchEnd : JsEvent
  | loadFired : JsEvent
deriving DecidableEq, Repr

/-- Effect of one event at time `t`, exactly as the handlers in the
script: starts increment the counter and clear the timer; ends
decrement it and call `done('xhr')` / `done('fetch')` when the counter
is `<= 0`; the `load` event calls `done('load')` once if the listener
is armed. -/
def applyEvent (t : Nat) (e : JsEvent) (s : IdleState) : IdleState :=
  match e with
  | .xhrLoadStart => { s with activeRequests := s.activeRequests + 1, idleTimer := none }
  | .xhrLoadEnd =>
      let s' := { s with activeRequests := s.activeRequests - 1 }
      if s'.activeRequests ≤ 0 then done t "xhr" s' else s'
  | .fetchStart => { s with activeRequests := s.activeRequests + 1, idleTimer := none }
  | .fetchEnd =>
      let s' := { s with activeRequests := s.activeRequests - 1 }
      if s'.activeRequests ≤ 0 then done t "fetch" s' else s'
  | .loadFired =>
      if s.loadPending then done t "load" { s with loadPending := false } else s

/-- Process one timed event: first fire the timer if its deadline has
passed, then run the event's handler. -/
def stepEvent (s : IdleState) (te : Nat × JsEvent) : IdleState :=
  applyEvent te.1 te.2 (fireTimerUpTo te.1 s)

/-- Process a chronological list of timed events. -/
def runEvents (s : IdleState) (evs : List (Nat × JsEvent)) : IdleState :=
  evs.foldl stepEvent s

/-- End of the timeline: a still-pending timer fires at its deadline. -/
def settle (s : IdleState) : IdleState :=
  match s.idleTimer with
  | some (d, label) => resolveAt d (label ++ "-network-idle") { s with idleTimer := none }
  | none => s

/-- Script start (`maybeResolveImmediately`) at time `0`: counter `0`,
and if `document.readyState === 'complete' && activeRequests === 0`
then `done('initial')`, else arm the once-only `load` listener. -/
def initIdle (docComplete : Bool) : IdleState :=
  let s : IdleState := ⟨0, none, false, none⟩
  if docComplete = true ∧ s.activeRequests = 0 then done 0 "initial" s
  else { s with loadPending := true }

/-- Whole-script run: start, process the page's events, let the last
timer fire. -/
def runIdleScript (docComplete : Bool) (evs : List (Nat × JsEvent)) : IdleState :=
  settle (runEvents (initIdle docComplete) evs)

/-! ## The Rust control flow of `browse_page` and `run` -/

/-- External operations `browse_page` attempts, in the order the source
performs them. -/
inductive BAction where
  | createRuntime : BAction
  | buildConfig : Bool → BAction
  | launch : BAction
  | spawnDrain : BAction
  | newPage : String → BAction
  | enableStealth : BAction
  | evaluateIdleScript : BAction
  | getContent : BAction
  | closeBrowser : BAction
deriving DecidableEq, Repr

/-- Outcome of each fallible external operation of one invocation
(`Runtime::new`, `browser_config.build`, `Browser::launch`,
`browser.new_page`, `page.enable_stealth_mode`, `page.evaluate`,
`page.content`, `browser.close`); the error value is the cause text
`format!("{e}")` would produce. -/
structure Oracle where
  runtimeNew : Except String Unit
  configBuild : Except String Unit
  launchBrowser : Except String Unit
  newPageNav : Except String Unit
  stealthApply : Except String Unit
  evalIdle : Except String Unit
  pageContent : Except String String
  closeRes : Except String Unit

/-- `browse_page(url, stealth, disable_headless)` (src/main.rs 70-142):
each `?` returns the first error; the trace records every operation
attempted, including the failing one.  `buildConfig` carries whether
`.with_head()` was applied (exactly when `disable_headless`), `newPage`
carries the url, and `enableStealth` is attempted exactly when
`stealth` holds. -/
def browse_page (o : Oracle) (url : String) (stealth : Bool) (disable_headless : Bool) :
    Except String String × List BAction :=
  match o.runtimeNew with
  | .error e => (.error e, [.createRuntime])
  | .ok _ =>
    match o.configBuild with
    | .error e => (.error e, [.createRuntime, .buildConfig disable_headless])
    | .ok _ =>
      match o.launchBrowser with
      | .error e => (.error e, [.createRuntime, .buildConfig disable_headless, .launch])
      | .ok _ =>
        let pre : List BAction :=
          [.createRuntime, .buildConfig disable_headless, .launch, .spawnDrain]
        match o.newPageNav with
        | .error e => (.error e, pre ++ [.newPage url])
        | .ok _ =>
          let stealthActs : List BAction := if stealth then [.enableStealth] else []
          let afterNav : List BAction := pre ++ [.newPage url]
          match (if stealth then o.stealthApply else .ok ()) with
          | .error e => (.error e, afterNav ++ stealthActs)
          | .ok _ =>
            match o.evalIdle with
            | .error e => (.error e, afterNav ++ stealthActs ++ [.evaluateIdleScript])
            | .ok _ =>
              match o.pageContent with
              | .error e =>
                  (.error e, afterNav ++ stealthActs ++ [.evaluateIdleScript, .getContent])
              | .ok html =>
                match o.closeRes with
                | .error e =>
                    (.error e,
                      afterNav ++ stealthActs ++
                        [.evaluateIdleScript, .getContent, .closeBrowser])
                | .ok _ =>
                    (.ok html,
                      afterNav ++ stealthActs ++
                        [.evaluateIdleScript, .getContent, .closeBrowser])

/-- The caller-visible error: message plus label (`LabeledError` with
`with_label`). -/
structure LabeledErr where
  msg : String
  label : String
deriving DecidableEq, Repr

/-- The call as the plugin sees it after evaluation: positional
arguments and the switches present. -/
structure EvaluatedCall where
  positional : List String
  flags : List String
deriving DecidableEq, Repr

/-- Stand-in for the host's error when the required positional argument
is absent (`call.req(0)?` fails inside the plugin framework, outside
this repository). -/
def missingUrlError : LabeledErr :=
  ⟨"missing required positional argument url", "missing argument"⟩

/-- `HttpBrowse::run` (src/main.rs 52-67): read the required `url`
(index 0), read the `no-stealth` and `with-head` switches, call
`browse_page url (!disable_stealth) disable_headless`, return the html
on success and otherwise a `LabeledError` whose message is the cause
text and whose label is "browse failed".  The pipeline `input` is bound
but never used, exactly as `_input` in the source. -/
def run (o : Oracle) (call : EvaluatedCall) (input : String) :
    Except LabeledErr String × List BAction :=
  match call.positional.head? with
  | none => (.error missingUrlError, [])
  | some url =>
    let disable_stealth := call.flags.contains "no-stealth"
    let disable_headless := call.flags.contains "with-head"
    match browse_page o url (!disable_stealth) disable_headless with
    | (.ok html, tr) => (.ok html, tr)
    | (.error e, tr) => (.error ⟨e, "browse failed"⟩, tr)

/-- `a` occurs strictly before any occurrence of `b` (true when `b`
does not occur). -/
def precedesB (a b : BAction) : List BAction → Bool
  | [] => true
  | x :: xs => if x = b then false else if x = a then true else precedesB a b xs

/-- Replace the url argument of a navigation action by `""`, leaving
every other action unchanged; used to compare traces up to the url. -/
def scrubUrl : BAction → BAction
  | .newPage _ => .newPage ""
  | a => a

/-- An oracle on which every external operation succeeds and the page
content is `html`. -/
def allOk (html : String) : Oracle :=
  ⟨.ok (), .ok (), .ok (), .ok (), .ok (), .ok (), .ok html, .ok ()⟩

/-- Whether a unit-valued operation succeeded. -/
def isOkU : Except String Unit → Bool
  | .ok _ => true
  | .error _ => false

/-- Whether a string-valued operation succeeded. -/
def isOkS : Except String String → Bool
  | .ok _ => true
  | .error _ => false

/-- The timed event list of a run of fetch-style requests, each given
by its start and completion time. -/
def fetchTrace : List (Nat × Nat) → List (Nat × JsEvent)
  | [] => []
  | (s, e) :: rest => (s, .fetchStart) :: (e, .fetchEnd) :: fetchTrace rest

/-- The requests are sequential (each starts no earlier than the
previous one completed) and every gap between a completion and the next
start is strictly smaller than the debounce interval. -/
def seqGapsB : List (Nat × Nat) → Bool
  | [] => true
  | [(s, e)] => decide (s ≤ e)
  | (s, e) :: (s', e') :: rest =>
      decide (s ≤ e) && decide (e ≤ s') && decide (s' < e + debounceMs) &&
        seqGapsB ((s', e') :: rest)

/-- Completion time of the last request of the run. -/
def lastEnd : List (Nat × Nat) → Nat
  | [] => 0
  | [(_, e)] => e
  | _ :: rest => lastEnd rest

/-! ## Lemmas about the idle-detection script -/

theorem runEvents_nil (s : IdleState) : runEvents s [] = s := rfl

theorem runEvents_cons (s : IdleState) (te : Nat × JsEvent) (evs : List (Nat × JsEvent)) :
    runEvents s (te :: evs) = runEvents (stepEvent s te) evs := rfl

theorem stepEvent_fetchStart_fresh (t : Nat) :
    stepEvent ⟨0, none, true, none⟩ (t, .fetchStart) = ⟨1, none, true, none⟩ := by
  simp [stepEvent, fireTimerUpTo, applyEvent]

theorem stepEvent_fetchEnd_single (t : Nat) :
    stepEvent ⟨1, none, true, none⟩ (t, .fetchEnd) =
      ⟨0, some (t + debounceMs, "fetch"), true, none⟩ := by
  simp [stepEvent, fireTimerUpTo, applyEvent, done]

theorem stepEvent_fetchStart_pending (t d : Nat) (hd : t < d) :
    stepEvent ⟨0, some (d, "fetch"), true, none⟩ (t, .fetchStart) = ⟨1, none, true, none⟩ := by
  have hnot : ¬ d ≤ t := by omega
  simp [stepEvent, fireTimerUpTo, applyEvent, hnot]

/-- Invariant of a sequential fetch run with gaps below the debounce
interval: after the whole event list is processed, the counter is back
to zero, the promise is unresolved, and the only pending timer is the
one armed by the last completion, set to fire one debounce interval
after it. -/
theorem runEvents_fetch_chain :
    ∀ (ps : List (Nat × Nat)) (s e : Nat),
      seqGapsB ((s, e) :: ps) = true →
      runEvents ⟨0, none, true, none⟩ (fetchTrace ((s, e) :: ps)) =
        ⟨0, some (lastEnd ((s, e) :: ps) + debounceMs, "fetch"), true, none⟩ := by
  intro ps
  induction ps with
  | nil =>
      intro s e _
      simp only [fetchTrace, runEvents_cons, runEvents_nil, stepEvent_fetchStart_fresh,
        stepEvent_fetchEnd_single, lastEnd]
  | cons p rest ih =>
      obtain ⟨s₂, e₂⟩ := p
      intro s e h
      have h' := h
      simp only [seqGapsB, Bool.and_eq_true, decide_eq_true_eq] at h'
      have hlt : s₂ < e + debounceMs := h'.1.2
      have hgaps : seqGapsB ((s₂, e₂) :: rest) = true := h'.2
      calc runEvents ⟨0, none, true, none⟩ (fetchTrace ((s, e) :: (s₂, e₂) :: rest))
          = runEvents ⟨0, some (e + debounceMs, "fetch"), true, none⟩
              (fetchTrace ((s₂, e₂) :: rest)) := by
            simp only [fetchTrace, runEvents_cons, stepEvent_fetchStart_fresh,
              stepEvent_fetchEnd_single]
        _ = runEvents ⟨1, none, true, none⟩ ((e₂, .fetchEnd) :: fetchTrace rest) := by
            simp only [fetchTrace, runEvents_cons, stepEvent_fetchStart_pending s₂ _ hlt]
        _ = runEvents ⟨0, none, true, none⟩ (fetchTrace ((s₂, e₂) :: rest)) := by
            simp only [fetchTrace, runEvents_cons, stepEvent_fetchStart_fresh]
        _ = ⟨0, some (lastEnd ((s₂, e₂) :: rest) + debounceMs, "fetch"), true, none⟩ :=
            ih s₂ e₂ hgaps
        _ = ⟨0, some (lastEnd ((s, e) :: (s₂, e₂) :: rest) + debounceMs, "fetch"), true,
              none⟩ := by
            simp only [lastEnd]

theorem stepEvent_resolved_stable (s : IdleState) (te : Nat × JsEvent) (r : Nat × String)
    (h : s.resolvedVal = some r) : (stepEvent s te).resolvedVal = some r := by
  obtain ⟨t, ev⟩ := te
  have hfire : (fireTimerUpTo t s).resolvedVal = some r := by
    unfold fireTimerUpTo
    cases htimer : s.idleTimer with
    | none => simpa using h
    | some dl =>
        obtain ⟨d, label⟩ := dl
        by_cases hd : d ≤ t
        · simp [hd, resolveAt, h]
        · simpa [hd] using h
  cases ev with
  | xhrLoadStart => simpa [stepEvent, applyEvent] using hfire
  | fetchStart => simpa [stepEvent, applyEvent] using hfire
  | xhrLoadEnd =>
      simp only [stepEvent, applyEvent]
      split
      · simpa [done] using hfire
      · simpa using hfire
  | fetchEnd =>
      simp only [stepEvent, applyEvent]
      split
      · simpa [done] using hfire
      · simpa using hfire
  | loadFired =>
      simp only [stepEvent, applyEvent]
      split
      · simpa [done] using hfire
      · simpa using hfire

theorem runEvents_resolved_stable (evs : List (Nat × JsEvent)) :
    ∀ (s : IdleState) (r : Nat × String), s.resolvedVal = some r →
      (runEvents s evs).resolvedVal = some r := by
  induction evs with
  | nil => intro s r h; simpa [runEvents_nil] using h
  | cons te evs ih =>
      intro s r h
      rw [runEvents_cons]
      exact ih _ r (stepEvent_resolved_stable s te r h)

theorem settle_resolved_stable (s : IdleState) (r : Nat × String)
    (h : s.resolvedVal = some r) : (settle s).resolvedVal = some r := by
  unfold settle
  cases htimer : s.idleTimer with
  | none => simpa using h
  | some dl =>
      obtain ⟨d, label⟩ := dl
      simp [resolveAt, h]

theorem initIdle_false : initIdle false = ⟨0, none, true, none⟩ := by decide

theorem initIdle_true : initIdle true = ⟨0, some (debounceMs, "initial"), false, none⟩ := by
  decide

/-! ## Claims about the idle-detection script -/

/-- C3 (confirmed): in the idle-detection script, a request completion
that brings the in-flight counter to zero arms a quiet timer of exactly
`debounceMs` = 500 ms whose label names the trigger (`xhr` for XHR,
`fetch` for fetch; the resolution value is the label followed by
`-network-idle`), and a run of sequential fetch-style requests whose
gaps are all shorter than the debounce interval resolves exactly at the
completion time of the last request plus 500 ms, with the fetch label —
never earlier. -/
theorem idle_debounce_and_label_c3 :
    (∀ (t : Nat) (s : IdleState), s.activeRequests = 1 →
        (applyEvent t .xhrLoadEnd s).idleTimer = some (t + debounceMs, "xhr") ∧
        (applyEvent t .fetchEnd s).idleTimer = some (t + debounceMs, "fetch")) ∧
    (∀ ps : List (Nat × Nat), ps ≠ [] → seqGapsB ps = true →
        (runIdleScript false (fetchTrace ps)).resolvedVal =
          some (lastEnd ps + debounceMs, "fetch-network-idle")) := by
  constructor
  · intro t s h
    constructor <;> simp [applyEvent, h, done]
  · intro ps hne hsg
    match ps, hne with
    | (s, e) :: ps', _ =>
      have hchain := runEvents_fetch_chain ps' s e hsg
      unfold runIdleScript
      rw [initIdle_false, hchain]
      simp [settle, resolveAt]

/-- Witness for C3 at a concrete run: two sequential fetches
(0 ─ 100 and 300 ─ 400, gap 200 ms < 500 ms) resolve at 900 ms with the
fetch label, and a completion from one in-flight request arms the
600 ms timer when it happens at 100 ms. -/
theorem idle_debounce_and_label_c3_witness :
    (applyEvent 100 .fetchEnd ⟨1, none, true, none⟩).idleTimer = some (600, "fetch") ∧
    (runIdleScript false (fetchTrace [(0, 100), (300, 400)])).resolvedVal =
      some (900, "fetch-network-idle") := by
  constructor
  · have h1 := (idle_debounce_and_label_c3.1 100 ⟨1, none, true, none⟩ rfl).2
    simpa [debounceMs] using h1
  · have h2 := idle_debounce_and_label_c3.2 [(0, 100), (300, 400)] (by decide) (by decide)
    simpa [lastEnd, debounceMs] using h2

/-- C4 (confirmed): the idle promise resolves exactly once — once the
script state carries a resolution, processing any further events, and
letting the last pending timer fire, leaves that resolution unchanged,
so every qualifying trigger after the first resolution is a no-op. -/
theorem idle_single_resolution_c4 :
    ∀ (s : IdleState) (r : Nat × String) (evs : List (Nat × JsEvent)),
      s.resolvedVal = some r →
      (runEvents s evs).resolvedVal = some r ∧
        (settle (runEvents s evs)).resolvedVal = some r := by
  intro s r evs h
  have h1 := runEvents_resolved_stable evs s r h
  exact ⟨h1, settle_resolved_stable _ r h1⟩

/-- Witness for C4: a state resolved at 500 ms with the initial label is
unchanged by a later fetch round-trip and a later load event. -/
theorem idle_single_resolution_c4_witness :
    (runEvents ⟨0, none, false, some (500, "initial-network-idle")⟩
        [(600, .fetchStart), (650, .fetchEnd), (1300, .loadFired)]).resolvedVal =
      some (500, "initial-network-idle") ∧
    (settle (runEvents ⟨0, none, false, some (500, "initial-network-idle")⟩
        [(600, .fetchStart), (650, .fetchEnd), (1300, .loadFired)])).resolvedVal =
      some (500, "initial-network-idle") :=
  idle_single_resolution_c4 ⟨0, none, false, some (500, "initial-network-idle")⟩
    (500, "initial-network-idle") [(600, .fetchStart), (650, .fetchEnd), (1300, .loadFired)]
    rfl

/-- C5 counterexample: with the document already complete and no request
in flight at script start, the promise does not resolve immediately —
it resolves 500 ms after script start, because `done('initial')` also
goes through the debounced timer — and a fetch round-trip inside that
quiet window preempts the `initial` label with the `fetch` label. -/
theorem idle_initial_delayed_c5_cex :
    (runIdleScript true []).resolvedVal = some (500, "initial-network-idle") ∧
    (runIdleScript true []).resolvedVal ≠ some (0, "initial-network-idle") ∧
    (runIdleScript true [(100, .fetchStart), (150, .fetchEnd)]).resolvedVal =
      some (650, "fetch-network-idle") := by
  refine ⟨by decide, by decide, by decide⟩

/-- C5 (corrected): on script start, if the document is already fully
loaded and no requests are in flight, the script arms the 500 ms quiet
timer with label `initial` and — when nothing intervenes — the promise
resolves 500 ms after script start (not immediately) with value
`initial-network-idle`; otherwise it arms the once-only load listener,
and once the load event fires at time `t` with no other activity the
promise resolves at `t` + 500 ms with value `load-network-idle`; a
static page with no network calls and an already-complete document
always resolves with the `initial` label, never `xhr` or `fetch`. -/
theorem idle_initial_or_load_c5 :
    (initIdle true).idleTimer = some (debounceMs, "initial") ∧
    (initIdle true).loadPending = false ∧
    (runIdleScript true []).resolvedVal = some (debounceMs, "initial-network-idle") ∧
    (initIdle false).idleTimer = none ∧
    (initIdle false).loadPending = true ∧
    (∀ t : Nat, (runIdleScript false [(t, .loadFired)]).resolvedVal =
        some (t + debounceMs, "load-network-idle")) := by
  refine ⟨by decide, by decide, by decide, by decide, by decide, ?_⟩
  intro t
  unfold runIdleScript
  rw [initIdle_false, runEvents_cons, runEvents_nil]
  simp [stepEvent, fireTimerUpTo, applyEvent, done, settle, resolveAt]

/-! ## Claims about the session lifecycle and the invocation facade -/

/-- C1 counterexample: with a successful launch and a failing
navigation, `browse_page` returns the navigation error without ever
attempting `browser.close()` — the trace stops at the `new_page` call,
so the claim that the session is closed on every failure path after a
successful launch is false. -/
theorem browse_close_skipped_c1_cex :
    (browse_page ⟨.ok (), .ok (), .ok (), .error "net::ERR_NAME_NOT_RESOLVED", .ok (), .ok (),
        .ok "<html>", .ok ()⟩ "http://invalid.invalid" true false).1 =
      .error "net::ERR_NAME_NOT_RESOLVED" ∧
    BAction.closeBrowser ∉
      (browse_page ⟨.ok (), .ok (), .ok (), .error "net::ERR_NAME_NOT_RESOLVED", .ok (), .ok (),
          .ok "<html>", .ok ()⟩ "http://invalid.invalid" true false).2 ∧
    (browse_page ⟨.ok (), .ok (), .ok (), .error "net::ERR_NAME_NOT_RESOLVED", .ok (), .ok (),
        .ok "<html>", .ok ()⟩ "http://invalid.invalid" true false).2 =
      [.createRuntime, .buildConfig false, .launch, .spawnDrain,
        .newPage "http://invalid.invalid"] := by
  refine ⟨rfl, by decide, rfl⟩

/-- C1 (corrected): `browser.close()` is attempted if and only if every
phase before it — runtime creation, configuration build, launch,
navigation, stealth when requested, idle-script evaluation and content
retrieval — succeeded; on any failure after a successful launch,
`browse_page` returns the error without invoking close (the browser
handle is merely dropped). -/
theorem browse_close_iff_success_c1 :
    ∀ (o : Oracle) (url : String) (st dh : Bool),
      BAction.closeBrowser ∈ (browse_page o url st dh).2 ↔
        (isOkU o.runtimeNew = true ∧ isOkU o.configBuild = true ∧
          isOkU o.launchBrowser = true ∧ isOkU o.newPageNav = true ∧
          (st = true → isOkU o.stealthApply = true) ∧
          isOkU o.evalIdle = true ∧ isOkS o.pageContent = true) := by
  intro o url st dh
  obtain ⟨rt, cfg, l, n, sa, ev, ct, cl⟩ := o
  cases rt <;> cases cfg <;> cases l <;> cases n <;> cases st <;> cases sa <;> cases ev <;>
    cases ct <;> cases cl <;> simp [browse_page, isOkU, isOkS]

/-- Witness for C1 (amended form): on the all-success oracle, close is
attempted; with a failing evaluation, it is not. -/
theorem browse_close_iff_success_c1_witness :
    BAction.closeBrowser ∈ (browse_page (allOk "<html>") "https://example.com" true false).2 ∧
    BAction.closeBrowser ∉
      (browse_page ⟨.ok (), .ok (), .ok (), .ok (), .ok (), .error "eval failed", .ok "<html>",
          .ok ()⟩ "https://example.com" true false).2 := by
  constructor
  · exact (browse_close_iff_success_c1 (allOk "<html>") "https://example.com" true false).mpr
      ⟨rfl, rfl, rfl, rfl, fun _ => rfl, rfl, rfl⟩
  · intro hmem
    have h := (browse_close_iff_success_c1
      ⟨.ok (), .ok (), .ok (), .ok (), .ok (), .error "eval failed", .ok "<html>", .ok ()⟩
      "https://example.com" true false).mp hmem
    exact absurd h.2.2.2.2.2.1 (by decide)

/-- C2 counterexample: if the page content was already retrieved
successfully but `browser.close()` fails, `browse_page` returns the
close error, not the retrieved HTML — the `?` on the close call
overrides the already-obtained success. -/
theorem browse_close_error_c2_cex :
    (browse_page ⟨.ok (), .ok (), .ok (), .ok (), .ok (), .ok (), .ok "<html></html>",
        .error "close failed"⟩ "https://example.com" true false).1 = .error "close failed" ∧
    (browse_page ⟨.ok (), .ok (), .ok (), .ok (), .ok (), .ok (), .ok "<html></html>",
        .error "close failed"⟩ "https://example.com" true false).1 ≠ .ok "<html></html>" := by
  refine ⟨rfl, by simp [browse_page]⟩

/-- C2 (corrected): after a successful content retrieval the close
outcome is not discarded: `browse_page` returns the retrieved HTML only
when `browser.close()` also succeeds, and returns the close error —
discarding the HTML — when it fails. -/
theorem browse_close_error_overrides_c2 :
    ∀ (o : Oracle) (url : String) (st dh : Bool) (html e : String),
      o.runtimeNew = .ok () → o.configBuild = .ok () → o.launchBrowser = .ok () →
      o.newPageNav = .ok () → (st = true → o.stealthApply = .ok ()) →
      o.evalIdle = .ok () → o.pageContent = .ok html →
      ((o.closeRes = .ok () → (browse_page o url st dh).1 = .ok html) ∧
        (o.closeRes = .error e → (browse_page o url st dh).1 = .error e)) := by
  intro o url st dh html e h1 h2 h3 h4 h5 h6 h7
  cases st with
  | false =>
      constructor <;> intro h8 <;> simp [browse_page, h1, h2, h3, h4, h6, h7, h8]
  | true =>
      have h5' := h5 rfl
      constructor <;> intro h8 <;> simp [browse_page, h1, h2, h3, h4, h5', h6, h7, h8]

/-- Witness for C2 (amended form) at concrete oracles: success when
close succeeds, the close error when it fails. -/
theorem browse_close_error_overrides_c2_witness :
    (browse_page (allOk "<p>hi</p>") "https://example.com" true false).1 = .ok "<p>hi</p>" ∧
    (browse_page ⟨.ok (), .ok (), .ok (), .ok (), .ok (), .ok (), .ok "<p>hi</p>",
        .error "io error"⟩ "https://example.com" true false).1 = .error "io error" := by
  constructor
  · exact (browse_close_error_overrides_c2 (allOk "<p>hi</p>") "https://example.com" true false
      "<p>hi</p>" "io error" rfl rfl rfl rfl (fun _ => rfl) rfl rfl).1 rfl
  · exact (browse_close_error_overrides_c2
      ⟨.ok (), .ok (), .ok (), .ok (), .ok (), .ok (), .ok "<p>hi</p>", .error "io error"⟩
      "https://example.com" true false "<p>hi</p>" "io error" rfl rfl rfl rfl (fun _ => rfl)
      rfl rfl).2 rfl

/-- C6 (confirmed): in every invocation, the idle-script evaluation
precedes content retrieval in the attempted-operation trace, and when
stealth is requested, stealth activation precedes the idle-script
evaluation. -/
theorem browse_ordering_c6 :
    ∀ (o : Oracle) (url : String) (st dh : Bool),
      precedesB .evaluateIdleScript .getContent (browse_page o url st dh).2 = true ∧
      (st = true →
        precedesB .enableStealth .evaluateIdleScript (browse_page o url st dh).2 = true) := by
  intro o url st dh
  obtain ⟨rt, cfg, l, n, sa, ev, ct, cl⟩ := o
  cases rt <;> cases cfg <;> cases l <;> cases n <;> cases st <;> cases sa <;> cases ev <;>
    cases ct <;> cases cl <;> simp [browse_page, precedesB]

/-- Witness for C6 on the all-success stealth invocation. -/
theorem browse_ordering_c6_witness :
    precedesB .evaluateIdleScript .getContent
      (browse_page (allOk "<html>") "https://example.com" true false).2 = true ∧
    precedesB .enableStealth .evaluateIdleScript
      (browse_page (allOk "<html>") "https://example.com" true false).2 = true := by
  have h := browse_ordering_c6 (allOk "<html>") "https://example.com" true false
  exact ⟨h.1, h.2 rfl⟩

/-- C7 (confirmed): a failure in any phase — launch, navigation,
stealth, evaluation, content retrieval — skips every later phase, and
the caller receives a single `LabeledError` whose message is the
original cause text and whose label is the fixed string
"browse failed"; since the result is that error, no HTML is returned on
any failure. -/
theorem run_failure_propagation_c7 :
    ∀ (o : Oracle) (flags rest : List String) (input url e : String),
      (o.runtimeNew = .ok () → o.configBuild = .ok () → o.launchBrowser = .error e →
        (run o ⟨url :: rest, flags⟩ input).1 = .error ⟨e, "browse failed"⟩ ∧
        BAction.newPage url ∉ (run o ⟨url :: rest, flags⟩ input).2 ∧
        BAction.enableStealth ∉ (run o ⟨url :: rest, flags⟩ input).2 ∧
        BAction.evaluateIdleScript ∉ (run o ⟨url :: rest, flags⟩ input).2 ∧
        BAction.getContent ∉ (run o ⟨url :: rest, flags⟩ input).2 ∧
        BAction.closeBrowser ∉ (run o ⟨url :: rest, flags⟩ input).2) ∧
      (o.runtimeNew = .ok () → o.configBuild = .ok () → o.launchBrowser = .ok () →
        o.newPageNav = .error e →
        (run o ⟨url :: rest, flags⟩ input).1 = .error ⟨e, "browse failed"⟩ ∧
        BAction.enableStealth ∉ (run o ⟨url :: rest, flags⟩ input).2 ∧
        BAction.evaluateIdleScript ∉ (run o ⟨url :: rest, flags⟩ input).2 ∧
        BAction.getContent ∉ (run o ⟨url :: rest, flags⟩ input).2 ∧
        BAction.closeBrowser ∉ (run o ⟨url :: rest, flags⟩ input).2) ∧
      (o.runtimeNew = .ok () → o.configBuild = .ok () → o.launchBrowser = .ok () →
        o.newPageNav = .ok () → flags.contains "no-stealth" = false →
        o.stealthApply = .error e →
        (run o ⟨url :: rest, flags⟩ input).1 = .error ⟨e, "browse failed"⟩ ∧
        BAction.evaluateIdleScript ∉ (run o ⟨url :: rest, flags⟩ input).2 ∧
        BAction.getContent ∉ (run o ⟨url :: rest, flags⟩ input).2 ∧
        BAction.closeBrowser ∉ (run o ⟨url :: rest, flags⟩ input).2) ∧
      (o.runtimeNew = .ok () → o.configBuild = .ok () → o.launchBrowser = .ok () →
        o.newPageNav = .ok () → o.stealthApply = .ok () → o.evalIdle = .error e →
        (run o ⟨url :: rest, flags⟩ input).1 = .error ⟨e, "browse failed"⟩ ∧
        BAction.getContent ∉ (run o ⟨url :: rest, flags⟩ input).2 ∧
        BAction.closeBrowser ∉ (run o ⟨url :: rest, flags⟩ input).2) ∧
      (o.runtimeNew = .ok () → o.configBuild = .ok () → o.launchBrowser = .ok () →
        o.newPageNav = .ok () → o.stealthApply = .ok () → o.evalIdle = .ok () →
        o.pageContent = .error e →
        (run o ⟨url :: rest, flags⟩ input).1 = .error ⟨e, "browse failed"⟩ ∧
        BAction.closeBrowser ∉ (run o ⟨url :: rest, flags⟩ input).2) := by
  intro o flags rest input url e
  refine ⟨?_, ?_, ?_, ?_, ?_⟩
  · intro h1 h2 h3
    simp [run, browse_page, h1, h2, h3]
  · intro h1 h2 h3 h4
    simp [run, browse_page, h1, h2, h3, h4]
  · intro h1 h2 h3 h4 h5 h6
    have h5' : "no-stealth" ∉ flags := by simpa using h5
    simp [run, browse_page, h1, h2, h3, h4, h5', h6]
  · intro h1 h2 h3 h4 h5 h6
    by_cases hc : "no-stealth" ∈ flags <;>
      simp [run, browse_page, h1, h2, h3, h4, h5, h6, hc]
  · intro h1 h2 h3 h4 h5 h6 h7
    by_cases hc : "no-stealth" ∈ flags <;>
      simp [run, browse_page, h1, h2, h3, h4, h5, h6, h7, hc]

/-- Witness for C7: a concrete navigation failure yields the labeled
error "browse failed" carrying the cause text, with no stealth,
evaluation, content or close step attempted. -/
theorem run_failure_propagation_c7_witness :
    (run ⟨.ok (), .ok (), .ok (), .error "nav failed", .ok (), .ok (), .ok "<html>", .ok ()⟩
        ⟨["http://invalid.invalid"], []⟩ "").1 = .error ⟨"nav failed", "browse failed"⟩ ∧
    BAction.getContent ∉
      (run ⟨.ok (), .ok (), .ok (), .error "nav failed", .ok (), .ok (), .ok "<html>", .ok ()⟩
          ⟨["http://invalid.invalid"], []⟩ "").2 ∧
    BAction.closeBrowser ∉
      (run ⟨.ok (), .ok (), .ok (), .error "nav failed", .ok (), .ok (), .ok "<html>", .ok ()⟩
          ⟨["http://invalid.invalid"], []⟩ "").2 := by
  have h := (run_failure_propagation_c7
    ⟨.ok (), .ok (), .ok (), .error "nav failed", .ok (), .ok (), .ok "<html>", .ok ()⟩
    [] [] "" "http://invalid.invalid" "nav failed").2.1 rfl rfl rfl rfl
  exact ⟨h.1, h.2.2.2.1, h.2.2.2.2⟩

/-- C8 (confirmed): on a successful invocation, stealth is applied
exactly when the `no-stealth` flag is absent, the configuration is
built with a visible head exactly when the `with-head` flag is present
(headless otherwise), and a call without the positional url argument
fails before any browser operation. -/
theorem run_flags_c8 :
    ∀ (html input url : String) (rest flags : List String) (o : Oracle),
      (BAction.enableStealth ∈ (run (allOk html) ⟨url :: rest, flags⟩ input).2 ↔
        flags.contains "no-stealth" = false) ∧
      (BAction.buildConfig true ∈ (run (allOk html) ⟨url :: rest, flags⟩ input).2 ↔
        flags.contains "with-head" = true) ∧
      (BAction.buildConfig false ∈ (run (allOk html) ⟨url :: rest, flags⟩ input).2 ↔
        flags.contains "with-head" = false) ∧
      run o ⟨[], flags⟩ input = (.error missingUrlError, []) := by
  intro html input url rest flags o
  by_cases hns : "no-stealth" ∈ flags <;> by_cases hwh : "with-head" ∈ flags <;>
    simp [run, browse_page, allOk, hns, hwh]

/-- C9 (confirmed): `browse_page` validates no URL itself — for a fixed
oracle its result, and its whole trace up to the url argument of the
navigation step, are identical for any two url strings (including `""`
or malformed ones); every trace starts with runtime creation, and the
browser launch precedes any use of the url. -/
theorem browse_url_independent_c9 :
    ∀ (o : Oracle) (st dh : Bool) (u₁ u₂ : String),
      (browse_page o u₁ st dh).1 = (browse_page o u₂ st dh).1 ∧
      (browse_page o u₁ st dh).2.map scrubUrl = (browse_page o u₂ st dh).2.map scrubUrl ∧
      (browse_page o u₁ st dh).2.head? = some .createRuntime ∧
      precedesB .launch (.newPage u₁) (browse_page o u₁ st dh).2 = true := by
  intro o st dh u₁ u₂
  obtain ⟨rt, cfg, l, n, sa, ev, ct, cl⟩ := o
  cases rt <;> cases cfg <;> cases l <;> cases n <;> cases st <;> cases sa <;> cases ev <;>
    cases ct <;> cases cl <;> simp [browse_page, scrubUrl, precedesB]

/-- C10 (confirmed): the pipeline input is ignored entirely — `run`
returns the same result and trace for any two input values, with the
url and flags held fixed. -/
theorem run_ignores_input_c10 :
    ∀ (o : Oracle) (call : EvaluatedCall) (i₁ i₂ : String),
      run o call i₁ = run o call i₂ := by
  intro o call i₁ i₂
  rfl

end NuBrowse
